import Mathlib

/-!
Shallow embedding of the Mental Wellness Support Bot (src/app.py).

The core classification-and-recommendation engine is pure: crisis
detection, distress scoring, theme extraction, strategy selection and
explanation generation are all ordinary functions over strings, lists
and association lists.  The interactive orchestrator is modelled as a
function from a session oracle (the responses the Prompter would
deliver) to the trace of observable events it produces.

String operations mirror the Python ones on the ASCII inputs the
program deals in: lowering maps the 26 uppercase ASCII letters,
title-casing uppercases a letter that does not follow another letter,
and the substring test is the contiguous-substring relation.
-/

namespace GoodBrain

/-- Lowering of a character, as Python lower behaves on ASCII text. -/
def pyLowerChar (c : Char) : Char := c.toLower

/-- Python str.lower restricted to ASCII: lower each character. -/
def pyLower (s : String) : String := ⟨s.data.map pyLowerChar⟩

/-- One step of Python str.title on ASCII text: a letter is uppercased
when the previous character is not a letter, and lowercased otherwise. -/
def pyTitleGo : Bool → List Char → List Char
  | _, [] => []
  | prevAlpha, c :: cs =>
      if c.isAlpha then
        (if prevAlpha then c.toLower else c.toUpper) :: pyTitleGo true cs
      else
        c :: pyTitleGo false cs

/-- Python str.title restricted to ASCII. -/
def pyTitle (s : String) : String := ⟨pyTitleGo false s.data⟩

/-- Python str.strip: drop leading and trailing whitespace. -/
def pyStrip (s : String) : String :=
  ⟨((s.data.dropWhile Char.isWhitespace).reverse.dropWhile Char.isWhitespace).reverse⟩

/-- Boolean test that the first list is a prefix of the second. -/
def isPrefixB : List Char → List Char → Bool
  | [], _ => true
  | _ :: _, [] => false
  | a :: as, b :: bs => a == b && isPrefixB as bs

/-- Boolean test that needle occurs contiguously inside hay
(the Python expression needle in hay on strings). -/
def substrB (needle : List Char) : List Char → Bool
  | [] => isPrefixB needle []
  | c :: rest => isPrefixB needle (c :: rest) || substrB needle rest

/-- Python needle in hay on strings. -/
def strIn (needle hay : String) : Bool := substrB needle.data hay.data

/-- The specification-level notion of substring: hay decomposes as
pre ++ needle ++ post. -/
def ContainsSub (needle hay : String) : Prop :=
  ∃ pre post : String, hay = pre ++ needle ++ post

theorem isPrefixB_iff (n h : List Char) :
    isPrefixB n h = true ↔ ∃ t, n ++ t = h := by
  induction n generalizing h with
  | nil => simp [isPrefixB]
  | cons a as ih =>
      cases h with
      | nil =>
          simp [isPrefixB]
      | cons b bs =>
          simp only [isPrefixB, Bool.and_eq_true, beq_iff_eq, ih]
          constructor
          · rintro ⟨hab, t, ht⟩
            exact ⟨t, by simp [hab, ht]⟩
          · rintro ⟨t, ht⟩
            simp only [List.cons_append, List.cons.injEq] at ht
            exact ⟨ht.1, t, ht.2⟩

theorem substrB_iff (n h : List Char) :
    substrB n h = true ↔ ∃ s t, s ++ n ++ t = h := by
  induction h with
  | nil =>
      simp only [substrB, isPrefixB_iff]
      constructor
      · rintro ⟨t, ht⟩
        exact ⟨[], t, by simpa using ht⟩
      · rintro ⟨s, t, hst⟩
        have hs : s = [] := by
          cases s with
          | nil => rfl
          | cons x xs => simp at hst
        subst hs
        exact ⟨t, by simpa using hst⟩
  | cons c rest ih =>
      simp only [substrB, Bool.or_eq_true, isPrefixB_iff, ih]
      constructor
      · rintro (⟨t, ht⟩ | ⟨s, t, hst⟩)
        · exact ⟨[], t, by simpa using ht⟩
        · exact ⟨c :: s, t, by simp [hst]⟩
      · rintro ⟨s, t, hst⟩
        cases s with
        | nil =>
            left
            exact ⟨t, by simpa using hst⟩
        | cons x xs =>
            right
            simp only [List.cons_append, List.cons.injEq] at hst
            exact ⟨xs, t, hst.2⟩

theorem strIn_iff (needle hay : String) :
    strIn needle hay = true ↔ ContainsSub needle hay := by
  unfold strIn ContainsSub
  rw [substrB_iff]
  constructor
  · rintro ⟨s, t, hst⟩
    refine ⟨⟨s⟩, ⟨t⟩, ?_⟩
    apply congrArg String.mk
    simpa using hst.symm
  · rintro ⟨⟨s⟩, ⟨t⟩, hst⟩
    refine ⟨s, t, ?_⟩
    have : hay.data = s ++ needle.data ++ t := congrArg String.data hst
    simp [this]

/-! ### Knowledge base (src/app.py lines 149-182, 312-343) -/

/-- Words that might indicate a crisis (CRISIS_KEYWORDS). -/
def CRISIS_KEYWORDS : List String :=
  ["suicide", "kill myself", "end my life", "can\u0027t go on", "hopeless",
   "self-harm", "hurting myself", "overdose", "jump", "cut", "die",
   "ending it", "give up"]

/-- A coping strategy: description text and associated themes. -/
structure Strategy where
  desc : String
  themes : List String
  deriving DecidableEq, Repr

/-- The strategy lexicon (STRATEGIES), in declaration order. -/
def STRATEGIES : List (String × Strategy) :=
  [("mindfulness",
    ⟨"Practice being present: try mindful breathing, or notice sensations around you.",
     ["anxiety", "stress", "overthinking", "panic"]⟩),
   ("journaling",
    ⟨"Write down your thoughts and feelings for 5-10 minutes.",
     ["rumination", "sadness", "confusion"]⟩),
   ("reach out",
    ⟨"Connect with a friend, family member, or helpline.",
     ["loneliness", "hopelessness", "crisis"]⟩),
   ("movement",
    ⟨"Move your body gently—stretch, walk, or dance for a few minutes.",
     ["low energy", "tension", "restlessness"]⟩),
   ("self-compassion",
    ⟨"Speak kindly to yourself as you would to a friend.",
     ["self-criticism", "shame", "guilt"]⟩),
   ("grounding",
    ⟨"Try the 5-4-3-2-1 technique: notice 5 things you see, 4 you feel, 3 you hear, 2 you smell, 1 you taste.",
     ["panic", "dissociation", "anxiety"]⟩)]

/-- Cue lists for one theme (a THEME_CUES entry). -/
structure Cues where
  present : List String
  missing_examples : List String
  deriving DecidableEq, Repr

/-- Per-theme cues (THEME_CUES), in declaration order. -/
def THEME_CUES : List (String × Cues) :=
  [("anxiety",
    ⟨["anx", "worry", "on edge", "keyed-up", "keyed up", "panic"],
     ["muscle tension", "racing thoughts", "restlessness"]⟩),
   ("low energy",
    ⟨["low energy", "exhausted", "tired"],
     ["refreshing sleep", "regular meals", "light activity"]⟩),
   ("overthinking",
    ⟨["overthink", "ruminat"],
     ["time-boxed worry", "journaling"]⟩),
   ("hopelessness",
    ⟨["hopeless"],
     ["recent positive moments", "supportive contact"]⟩),
   ("panic",
    ⟨["panic"],
     ["grounding technique used", "breathing exercise tried"]⟩),
   ("loneliness",
    ⟨["lonely", "alone"],
     ["recent check-in with someone"]⟩),
   ("self-criticism",
    ⟨["self-crit", "guilt", "shame"],
     ["self‑compassion practice"]⟩)]

/-! ### Answer sets

The Python code stores check-in answers in a dict and reads them with
answers.get(key, ""); we model the dict as an association list in
insertion order, with getA as the defaulting read. -/

/-- An answer dictionary: keys to free-text values, insertion order. -/
abbrev AnswersD := List (String × String)

/-- Python answers.get(key, ""). -/
def getA (a : AnswersD) (key : String) : String :=
  (List.lookup key a).getD ""

/-- The answer set built by the five check-in questions, in question
order (keys emotion, stress, energy, thoughts, difficulties). -/
def mkAnswers (emotion stress energy thoughts difficulties : String) : AnswersD :=
  [("emotion", emotion), ("stress", stress), ("energy", energy),
   ("thoughts", thoughts), ("difficulties", difficulties)]

/-- Python answers.values(): the values in insertion order. -/
def answersValues (a : AnswersD) : List String := a.map Prod.snd

/-! ### Core engine (src/app.py lines 210-301, 345-386) -/

/-- contains_crisis: lower the text, then test each crisis keyword as a
substring (src/app.py lines 210-213). -/
def contains_crisis (text : String) : Bool :=
  let t_lower := pyLower text
  CRISIS_KEYWORDS.any (fun kw => strIn kw t_lower)

/-- score_checkin: additive distress score (src/app.py lines 236-251). -/
def score_checkin (answers : AnswersD) : Nat :=
  let s0 := 0
  let s1 :=
    if strIn "severe" (pyLower (getA answers "stress")) then s0 + 2
    else if strIn "moderate" (pyLower (getA answers "stress")) then s0 + 1
    else s0
  let s2 := if strIn "low" (pyLower (getA answers "energy")) then s1 + 1 else s1
  let s3 :=
    if CRISIS_KEYWORDS.any (fun kw => strIn kw (pyLower (getA answers "thoughts")))
    then s2 + 3 else s2
  if pyStrip (getA answers "difficulties") ≠ "" then s3 + 1 else s3

/-- rank_themes: fixed rule list, each rule a substring test on one
answer field, result in rule-declaration order (src/app.py 270-289). -/
def rank_themes (answers : AnswersD) : List String :=
  (if strIn "anx" (pyLower (getA answers "stress")) then ["anxiety"] else []) ++
  (if strIn "low" (pyLower (getA answers "energy")) then ["low energy"] else []) ++
  (if strIn "overthink" (pyLower (getA answers "thoughts")) then ["overthinking"] else []) ++
  (if strIn "hopeless" (pyLower (getA answers "emotion")) then ["hopelessness"] else []) ++
  (if strIn "panic" (pyLower (getA answers "emotion")) then ["panic"] else []) ++
  (if strIn "lonely" (pyLower (getA answers "emotion")) then ["loneliness"] else []) ++
  (if strIn "self-crit" (pyLower (getA answers "thoughts")) then ["self-criticism"] else [])

/-- choose_strategies: one pass over the strategy lexicon in declaration
order, keeping a strategy when one of the input themes occurs among its
associated themes; fixed fallback when nothing matched (src/app.py
lines 291-301). -/
def choose_strategies (themes : List String) : List String :=
  let recs := (STRATEGIES.filter
    (fun kv => themes.any (fun th => kv.2.themes.contains th))).map Prod.fst
  if recs.isEmpty then ["mindfulness", "reach out"] else recs

/-- reflect_summary (src/app.py lines 205-208). -/
def reflect_summary (user_inputs : List String) : String :=
  "It sounds like: " ++ String.intercalate "; " user_inputs

/-- The cue entry for a theme: THEME_CUES.get(theme, empty default)
(src/app.py line 366). -/
def cuesFor (theme : String) : Cues :=
  (List.lookup theme THEME_CUES).getD ⟨[], []⟩

/-- Cue words of the theme found in the evidence corpus
(src/app.py line 367). -/
def heardFor (combined theme : String) : List String :=
  (cuesFor theme).present.filter (fun k => strIn k combined)

/-- Python sorted(set(heard)): deduplicate, then sort lexically. -/
def sortedHeard (combined theme : String) : List String :=
  List.insertionSort (· ≤ ·) (heardFor combined theme).dedup

/-- Missing-cue examples whose lowercase form is absent from the corpus
(src/app.py line 368). -/
def missingFor (combined theme : String) : List String :=
  (cuesFor theme).missing_examples.filter (fun m => !(strIn (pyLower m) combined))

/-- One printed evidence line for a theme (src/app.py lines 369-376). -/
def themeLine (combined theme : String) : String :=
  let heardS := sortedHeard combined theme
  let missing := missingFor combined theme
  let line0 := "  • " ++ pyTitle theme ++ ": "
  let line1 :=
    if heardS.isEmpty then
      line0 ++ "signals heard → general check‑in responses"
    else
      line0 ++ "signals heard → " ++ String.intercalate ", " heardS
  if missing.isEmpty then line1
  else line1 ++ "; signals not heard → " ++ String.intercalate ", " (missing.take 2)

/-- explain_why, modelled as the list of printed lines: the generic
message when no themes were detected, otherwise the reason line, one
evidence line per theme capped at the first three themes, and the final
blank line (src/app.py lines 345-386; the strategies argument is not
read by the computation, as in the source). -/
def explain_why (strategies themes : List String) (answers : AnswersD) : List String :=
  let _ := strategies
  let combined := pyLower (String.intercalate " " (answersValues answers))
  if themes.isEmpty then
    ["These are generally helpful strategies for well-being."]
  else
    ("I suggested these because you mentioned: "
        ++ String.intercalate ", " themes ++ ".")
      :: (themes.take 3).map (themeLine combined) ++ [""]

/-! ### Session orchestrator (src/app.py lines 228-234, 254-267, 397-459)

The interactive loop is modelled as a function from a session oracle
(the answers the Prompter would return) to the trace of observable
events.  ask_choice re-prompts until the reply matches one of the
offered choices and returns the canonical entry, so its outcome is
modelled as a validated value: a Bool for the yes/no question, and an
index into the offered titles for the strategy pick. -/

/-- The five fixed check-in questions with their answer keys
(CHECKIN_QUESTIONS, src/app.py lines 228-234). -/
def CHECKIN_QUESTIONS : List (String × String) :=
  [("How are you feeling emotionally right now?", "emotion"),
   ("Are you experiencing any stress or anxiety? (none/mild/moderate/severe)", "stress"),
   ("How is your energy level? (low/ok/high)", "energy"),
   ("Are you having any thoughts that are hard to manage?", "thoughts"),
   ("Is there anything making things especially difficult today?", "difficulties")]

/-- The follow-up questions the bot would ask for a given answer set, in
order: severe stress, low energy, non-empty difficulties (follow_up,
src/app.py lines 254-267). -/
def followup_questions (answers : AnswersD) : List String :=
  (if strIn "severe" (pyLower (getA answers "stress")) then
    ["I\u0027m sorry to hear your stress feels severe. Would you like to share more about what\u0027s causing it?"]
   else []) ++
  (if strIn "low" (pyLower (getA answers "energy")) then
    ["Low energy can be tough. Have you been able to rest or take care of yourself lately?"]
   else []) ++
  (if pyStrip (getA answers "difficulties") ≠ "" then
    ["Thank you for sharing what\u0027s difficult. Is there any support you wish you had right now?"]
   else [])

/-- The Prompter side of one session: what the user would answer. -/
structure Session where
  checkinResp : Nat → String
  followupResp : Nat → String
  tryStrategy : Bool
  pickIdx : Nat

/-- Observable events of one session, in order of occurrence. -/
inductive Event where
  | asked (q : String)
  | askedChoice (q : String)
  | summaryShown (s : String)
  | crisisResourcesShown
  | scoreComputed (n : Nat)
  | recommendationsShown (ks : List String)
  | explanationShown (lines : List String)
  | exerciseShown (key : String) (desc : Option String)
  | closingShown
  deriving DecidableEq, Repr

/-- One iteration of the check-in loop: ask the question, record the
answer under its key, append it to user_inputs, and accumulate the
crisis flag (the for-loop body of run_bot, src/app.py lines 405-410). -/
def checkinStep (resp : Nat → String)
    (st : List Event × AnswersD × List String × Bool)
    (qk : String × String) : List Event × AnswersD × List String × Bool :=
  let (evs, answers, inputs, flag) := st
  let r := resp inputs.length
  (evs ++ [Event.asked qk.1],
   answers ++ [(qk.2, r)],
   inputs ++ [r],
   flag || contains_crisis r)

/-- run_bot as a trace function (src/app.py lines 397-459): run the
five-question check-in accumulating the crisis flag; on a set flag show
crisis resources and stop; otherwise show the summary, ask the
follow-ups, compute the score, themes and strategies, show the
recommendations and the explanation; if a follow-up answer contains
crisis language show crisis resources and stop; otherwise offer a
guided exercise (looking the picked title back up in STRATEGIES after
lowercasing) and close. -/
def run_bot (s : Session) : List Event :=
  let st := CHECKIN_QUESTIONS.foldl (checkinStep s.checkinResp) ([], [], [], false)
  let evs := st.1
  let answers := st.2.1
  let user_inputs := st.2.2.1
  let crisis_flag := st.2.2.2
  if crisis_flag then
    evs ++ [Event.crisisResourcesShown]
  else
    let fuQs := followup_questions answers
    let followup_resps := (List.range fuQs.length).map s.followupResp
    let score := score_checkin answers
    let themes := rank_themes answers
    let strategies := choose_strategies themes
    let evs := evs ++ [Event.summaryShown (reflect_summary user_inputs)]
      ++ fuQs.map Event.asked
      ++ [Event.scoreComputed score,
          Event.recommendationsShown strategies,
          Event.explanationShown (explain_why strategies themes answers)]
    if followup_resps.any contains_crisis then
      evs ++ [Event.crisisResourcesShown]
    else
      let evs := evs
        ++ [Event.askedChoice "Would you like to try one of these strategies now?"]
      let evs :=
        if s.tryStrategy then
          let titles := strategies.map pyTitle
          let chosen := titles.getD (s.pickIdx % titles.length) ""
          let chosen_key := pyLower chosen
          evs ++ [Event.askedChoice "Which would you like to try?",
                  Event.exerciseShown chosen_key
                    ((List.lookup chosen_key STRATEGIES).map Strategy.desc)]
        else evs
      evs ++ [Event.closingShown]

/-! ### Shared lemmas -/

instance (needle hay : String) : Decidable (ContainsSub needle hay) :=
  decidable_of_iff (strIn needle hay = true) (strIn_iff needle hay)

theorem getA_mk_emotion (e s en th d : String) :
    getA (mkAnswers e s en th d) "emotion" = e := rfl

theorem getA_mk_stress (e s en th d : String) :
    getA (mkAnswers e s en th d) "stress" = s := rfl

theorem getA_mk_energy (e s en th d : String) :
    getA (mkAnswers e s en th d) "energy" = en := rfl

theorem getA_mk_thoughts (e s en th d : String) :
    getA (mkAnswers e s en th d) "thoughts" = th := rfl

theorem getA_mk_difficulties (e s en th d : String) :
    getA (mkAnswers e s en th d) "difficulties" = d := rfl

theorem mem_ite_singleton {c : Prop} [Decidable c] {x th : String}
    (h : th ∈ (if c then [x] else [])) : th = x ∧ c := by
  by_cases hc : c
  · simp [hc] at h
    exact ⟨h, hc⟩
  · simp [hc] at h

/-- Every theme the extractor can emit belongs to the fixed closed set. -/
theorem rank_themes_subset (a : AnswersD) (th : String)
    (h : th ∈ rank_themes a) :
    th ∈ ["anxiety", "low energy", "overthinking", "hopelessness",
          "panic", "loneliness", "self-criticism"] := by
  unfold rank_themes at h
  simp only [List.mem_append] at h
  rcases h with ((((((h | h) | h) | h) | h) | h) | h) <;>
    simp [(mem_ite_singleton h).1]

/-- The strategy keys, in lexicon declaration order. -/
theorem strategies_keys :
    STRATEGIES.map Prod.fst =
      ["mindfulness", "journaling", "reach out", "movement",
       "self-compassion", "grounding"] := rfl

/-- Every selected strategy is a key of the lexicon. -/
theorem choose_strategies_subset_keys (themes : List String) (k : String)
    (h : k ∈ choose_strategies themes) : k ∈ STRATEGIES.map Prod.fst := by
  unfold choose_strategies at h
  set recs := (STRATEGIES.filter
    (fun kv => themes.any (fun th => kv.2.themes.contains th))).map Prod.fst with hrecs
  by_cases he : recs.isEmpty
  · rw [if_pos he] at h
    fin_cases h <;> decide
  · rw [if_neg he] at h
    rw [hrecs] at h
    exact ((List.filter_sublist STRATEGIES).map Prod.fst).subset h

/-- The selector never returns the empty list. -/
theorem choose_strategies_ne_nil (themes : List String) :
    choose_strategies themes ≠ [] := by
  simp only [choose_strategies]
  split
  · simp
  · next he => simpa [List.isEmpty_iff] using he

/-- Lowering the title-cased form of any lexicon key recovers the key. -/
theorem keys_title_roundtrip :
    ∀ k ∈ STRATEGIES.map Prod.fst, pyLower (pyTitle k) = k := by decide

/-- Looking any lexicon key up in the lexicon succeeds. -/
theorem keys_lookup_isSome :
    ∀ k ∈ STRATEGIES.map Prod.fst,
      (List.lookup k STRATEGIES).isSome = true := by decide

/-- The check-in loop of run_bot, fully unrolled: the five questions are
asked unconditionally, the answers land under their keys in question
order, and the crisis flag is the disjunction of the per-answer crisis
tests. -/
theorem checkin_foldl (s : Session) :
    CHECKIN_QUESTIONS.foldl (checkinStep s.checkinResp) ([], [], [], false) =
      (CHECKIN_QUESTIONS.map (fun qk => Event.asked qk.1),
       mkAnswers (s.checkinResp 0) (s.checkinResp 1) (s.checkinResp 2)
         (s.checkinResp 3) (s.checkinResp 4),
       [s.checkinResp 0, s.checkinResp 1, s.checkinResp 2,
        s.checkinResp 3, s.checkinResp 4],
       contains_crisis (s.checkinResp 0) || contains_crisis (s.checkinResp 1)
         || contains_crisis (s.checkinResp 2) || contains_crisis (s.checkinResp 3)
         || contains_crisis (s.checkinResp 4)) := rfl

/-- On a set crisis flag, the trace is the five questions followed by
the crisis resources, and nothing else. -/
theorem run_bot_crisis_path (s : Session)
    (h : (contains_crisis (s.checkinResp 0) || contains_crisis (s.checkinResp 1)
      || contains_crisis (s.checkinResp 2) || contains_crisis (s.checkinResp 3)
      || contains_crisis (s.checkinResp 4)) = true) :
    run_bot s = CHECKIN_QUESTIONS.map (fun qk => Event.asked qk.1)
      ++ [Event.crisisResourcesShown] := by
  unfold run_bot
  rw [checkin_foldl]
  simp [h]

theorem pyLower_append (a b : String) :
    pyLower (a ++ b) = pyLower a ++ pyLower b := by
  cases a with
  | mk la =>
    cases b with
    | mk lb =>
      show String.mk ((la ++ lb).map pyLowerChar)
        = String.mk (la.map pyLowerChar ++ lb.map pyLowerChar)
      rw [List.map_append]

/-- A strategy title picked from the offered list, lowered back to a
lexicon key, always has a lookup hit (general form, stated in the shape
the orchestrator produces it in). -/
theorem exercise_lookup_isSome (themes : List String) (idx : Nat) :
    (Option.map Strategy.desc
      (List.lookup
        (pyLower ((Option.map pyTitle
          (choose_strategies themes)[idx % (choose_strategies themes).length]?).getD ""))
        STRATEGIES)).isSome = true := by
  have hne := choose_strategies_ne_nil themes
  have hlen : 0 < (choose_strategies themes).length := List.length_pos.mpr hne
  have hbound : idx % (choose_strategies themes).length
      < (choose_strategies themes).length := Nat.mod_lt _ hlen
  rw [List.getElem?_eq_getElem hbound]
  have hk : (choose_strategies themes)[idx % (choose_strategies themes).length]
      ∈ choose_strategies themes := List.getElem_mem hbound
  have hkeys := choose_strategies_subset_keys themes _ hk
  simp only [Option.map_some', Option.getD_some]
  rw [keys_title_roundtrip _ hkeys]
  have hsome := keys_lookup_isSome _ hkeys
  cases hl : List.lookup
      ((choose_strategies themes)[idx % (choose_strategies themes).length]) STRATEGIES with
  | none => rw [hl] at hsome; simp at hsome
  | some v => rfl

/-! ### Concrete sessions used as witnesses and counterexamples -/

/-- A session whose very first check-in answer contains crisis
language, with every later answer free of it. -/
def sessionCrisisAtFirstQuestion : Session :=
  ⟨fun i => if i == 0 then "I think about suicide" else "doing fine",
   fun _ => "", false, 0⟩

/-- A crisis-free session that accepts the guided exercise and picks
the strategy at offered index 3 mod 2, reaching the exercise step. -/
def sessionTriesExercise : Session :=
  ⟨fun i => if i == 0 then "feeling panicky" else "", fun _ => "ok", true, 3⟩

/-! ### The claims -/

/-- C1: if any of the five initial check-in answers satisfies
contains_crisis, the session trace is exactly the five questions
followed by the crisis resources: no score is computed, no
recommendations are shown and no explanation is shown, so the bot
reaches the crisis terminal before score_checkin, rank_themes,
choose_strategies or explain_why is invoked. -/
theorem crisis_checkin_short_circuits (s : Session)
    (h : ∃ i, i < 5 ∧ contains_crisis (s.checkinResp i) = true) :
    run_bot s = CHECKIN_QUESTIONS.map (fun qk => Event.asked qk.1)
        ++ [Event.crisisResourcesShown] ∧
    (∀ n, Event.scoreComputed n ∉ run_bot s) ∧
    (∀ ks, Event.recommendationsShown ks ∉ run_bot s) ∧
    (∀ lines, Event.explanationShown lines ∉ run_bot s) := by
  obtain ⟨i, hi, hc⟩ := h
  have hflag : (contains_crisis (s.checkinResp 0) || contains_crisis (s.checkinResp 1)
      || contains_crisis (s.checkinResp 2) || contains_crisis (s.checkinResp 3)
      || contains_crisis (s.checkinResp 4)) = true := by
    interval_cases i <;> simp [hc]
  have heq := run_bot_crisis_path s hflag
  refine ⟨heq, ?_, ?_, ?_⟩
  · intro n
    rw [heq]
    simp [CHECKIN_QUESTIONS]
  · intro ks
    rw [heq]
    simp [CHECKIN_QUESTIONS]
  · intro lines
    rw [heq]
    simp [CHECKIN_QUESTIONS]

theorem crisis_checkin_short_circuits_witness :
    run_bot sessionCrisisAtFirstQuestion
      = CHECKIN_QUESTIONS.map (fun qk => Event.asked qk.1)
        ++ [Event.crisisResourcesShown] :=
  (crisis_checkin_short_circuits sessionCrisisAtFirstQuestion
    ⟨0, by decide, by decide⟩).1

/-- C2 counterexample: in the session whose first answer (and only the
first) contains crisis language, the second and the fifth check-in
questions are still presented, contradicting the claim that questions
after the first crisis answer are never asked. -/
theorem checkin_not_cut_short_counterexample :
    contains_crisis (sessionCrisisAtFirstQuestion.checkinResp 0) = true ∧
    contains_crisis (sessionCrisisAtFirstQuestion.checkinResp 1) = false ∧
    contains_crisis (sessionCrisisAtFirstQuestion.checkinResp 2) = false ∧
    contains_crisis (sessionCrisisAtFirstQuestion.checkinResp 3) = false ∧
    contains_crisis (sessionCrisisAtFirstQuestion.checkinResp 4) = false ∧
    Event.asked "Are you experiencing any stress or anxiety? (none/mild/moderate/severe)"
        ∈ run_bot sessionCrisisAtFirstQuestion ∧
    Event.asked "Is there anything making things especially difficult today?"
        ∈ run_bot sessionCrisisAtFirstQuestion := by decide

/-- C2 (amended): when the i-th check-in answer satisfies
contains_crisis, the orchestrator still asks all five check-in
questions; only after the full check-in does it transition to the
crisis-exit terminal state (the trace ends in the crisis resources and
contains no recommendations). -/
theorem checkin_completes_before_crisis_exit (s : Session) (i : Nat)
    (hi : i < 5) (hc : contains_crisis (s.checkinResp i) = true) :
    (∀ q ∈ CHECKIN_QUESTIONS.map Prod.fst, Event.asked q ∈ run_bot s) ∧
    (run_bot s).getLast? = some Event.crisisResourcesShown ∧
    (∀ ks, Event.recommendationsShown ks ∉ run_bot s) := by
  have hflag : (contains_crisis (s.checkinResp 0) || contains_crisis (s.checkinResp 1)
      || contains_crisis (s.checkinResp 2) || contains_crisis (s.checkinResp 3)
      || contains_crisis (s.checkinResp 4)) = true := by
    interval_cases i <;> simp [hc]
  have heq := run_bot_crisis_path s hflag
  refine ⟨?_, ?_, ?_⟩
  · intro q hq
    rw [heq, List.mem_append]
    left
    obtain ⟨qk, hqk, rfl⟩ := List.mem_map.mp hq
    exact List.mem_map.mpr ⟨qk, hqk, rfl⟩
  · rw [heq]
    simp [CHECKIN_QUESTIONS]
  · intro ks
    rw [heq]
    simp [CHECKIN_QUESTIONS]

theorem checkin_completes_before_crisis_exit_witness :
    (run_bot sessionCrisisAtFirstQuestion).getLast?
      = some Event.crisisResourcesShown :=
  (checkin_completes_before_crisis_exit sessionCrisisAtFirstQuestion 0
    (by decide) (by decide)).2.1

/-- C3: contains_crisis returns true exactly when the lowered text
contains one of the crisis keywords as a contiguous substring; any
occurrence of a keyword in any letter case makes it true, and the two
examples from the specification evaluate as stated. -/
theorem contains_crisis_characterization :
    (∀ text : String,
      contains_crisis text = true ↔
        ∃ kw ∈ CRISIS_KEYWORDS, ContainsSub kw (pyLower text)) ∧
    (∀ pre mid post kw : String, kw ∈ CRISIS_KEYWORDS → pyLower mid = kw →
        contains_crisis (pre ++ mid ++ post) = true) ∧
    contains_crisis "I want to end my life" = true ∧
    contains_crisis "I feel okay today" = false := by
  have hiff : ∀ text : String,
      contains_crisis text = true ↔
        ∃ kw ∈ CRISIS_KEYWORDS, ContainsSub kw (pyLower text) := by
    intro text
    unfold contains_crisis
    simp only [List.any_eq_true, strIn_iff]
  refine ⟨hiff, ?_, by decide, by decide⟩
  intro pre mid post kw hkw hmid
  refine (hiff _).mpr ⟨kw, hkw, pyLower pre, pyLower post, ?_⟩
  rw [pyLower_append, pyLower_append, hmid]

theorem contains_crisis_characterization_witness :
    contains_crisis ("I feel I " ++ "CAN\u0027T GO ON" ++ " today") = true :=
  contains_crisis_characterization.2.1 "I feel I " "CAN\u0027T GO ON" " today"
    "can\u0027t go on" (by decide) (by decide)

/-- C4: score_checkin is the sum of four independent contributions:
2 for severe stress (else 1 for moderate, first match winning), 1 for
low energy, 3 for a crisis keyword among the thoughts, 1 for non-blank
difficulties; and the example from the specification scores 4. -/
theorem score_checkin_characterization :
    (∀ e s en th d : String,
      score_checkin (mkAnswers e s en th d) =
        (if ContainsSub "severe" (pyLower s) then 2
         else if ContainsSub "moderate" (pyLower s) then 1 else 0) +
        (if ContainsSub "low" (pyLower en) then 1 else 0) +
        (if ∃ kw ∈ CRISIS_KEYWORDS, ContainsSub kw (pyLower th) then 3 else 0) +
        (if pyStrip d ≠ "" then 1 else 0)) ∧
    score_checkin (mkAnswers "" "severe" "low" "" "rent") = 4 := by
  refine ⟨?_, by decide⟩
  intro e s en th d
  unfold score_checkin
  rw [getA_mk_stress, getA_mk_energy, getA_mk_thoughts, getA_mk_difficulties]
  simp only [← strIn_iff, List.any_eq_true]
  split_ifs <;> simp_arith

/-- C5: rank_themes evaluates its fixed rules against the specific
answer fields only, in declaration order, each rule contributing its
one theme exactly when its substring test on its own field fires; the
specification example yields hopelessness then panic. -/
theorem rank_themes_characterization :
    (∀ e s en th d : String,
      rank_themes (mkAnswers e s en th d) =
        (if ContainsSub "anx" (pyLower s) then ["anxiety"] else []) ++
        (if ContainsSub "low" (pyLower en) then ["low energy"] else []) ++
        (if ContainsSub "overthink" (pyLower th) then ["overthinking"] else []) ++
        (if ContainsSub "hopeless" (pyLower e) then ["hopelessness"] else []) ++
        (if ContainsSub "panic" (pyLower e) then ["panic"] else []) ++
        (if ContainsSub "lonely" (pyLower e) then ["loneliness"] else []) ++
        (if ContainsSub "self-crit" (pyLower th) then ["self-criticism"] else [])) ∧
    rank_themes (mkAnswers "I feel hopeless and panicky" "" "" "" "")
      = ["hopelessness", "panic"] := by
  refine ⟨?_, by decide⟩
  intro e s en th d
  unfold rank_themes
  rw [getA_mk_stress, getA_mk_energy, getA_mk_thoughts, getA_mk_emotion]
  simp only [← strIn_iff]

/-- C6: choose_strategies keeps, in lexicon declaration order and
without duplicates, exactly the strategies whose associated-theme set
meets the input theme list, falling back to mindfulness and reach out
when the selection is empty; the two specification examples evaluate
as stated, with the panic selection being exactly mindfulness then
grounding. -/
theorem choose_strategies_characterization :
    (∀ themes : List String,
      choose_strategies themes =
        (let sel := (STRATEGIES.filter
            (fun kv => decide (∃ th ∈ themes, th ∈ kv.2.themes))).map Prod.fst
         if sel.isEmpty then ["mindfulness", "reach out"] else sel)) ∧
    (∀ themes : List String, (choose_strategies themes).Nodup) ∧
    choose_strategies [] = ["mindfulness", "reach out"] ∧
    choose_strategies ["panic"] = ["mindfulness", "grounding"] := by
  have hpred : ∀ themes : List String, ∀ kv ∈ STRATEGIES,
      (themes.any fun th => kv.2.themes.contains th)
        = decide (∃ th ∈ themes, th ∈ kv.2.themes) := by
    intro themes kv _
    rw [Bool.eq_iff_iff]
    simp [List.any_eq_true]
  refine ⟨?_, ?_, by decide, by decide⟩
  · intro themes
    unfold choose_strategies
    rw [List.filter_congr (hpred themes)]
  · intro themes
    unfold choose_strategies
    set recs := (STRATEGIES.filter
      (fun kv => themes.any (fun th => kv.2.themes.contains th))).map Prod.fst with hrecs
    by_cases he : recs.isEmpty
    · rw [if_pos he]
      decide
    · rw [if_neg he]
      have hsub : List.Sublist recs (STRATEGIES.map Prod.fst) := by
        rw [hrecs]
        exact (List.filter_sublist STRATEGIES).map Prod.fst
      exact (by decide : (STRATEGIES.map Prod.fst).Nodup).sublist hsub

/-- C7: explain_why emits only the generic message on an empty theme
list; otherwise it renders the reason line, one evidence line for each
of at most the first three themes, and a final blank line; the heard
cues on a line are deduplicated and sorted, at most the first two
missing-cue examples are shown, and a five-theme input yields exactly
three evidence lines. -/
theorem explain_why_bounds :
    (∀ strategies answers, explain_why strategies [] answers =
        ["These are generally helpful strategies for well-being."]) ∧
    (∀ strategies themes answers,
      (explain_why strategies themes answers).length =
        if themes.isEmpty then 1 else min 3 themes.length + 2) ∧
    (∀ combined theme,
      List.Sorted (· ≤ ·) (sortedHeard combined theme)
        ∧ (sortedHeard combined theme).Nodup) ∧
    (∀ combined theme, ((missingFor combined theme).take 2).length ≤ 2) ∧
    (explain_why [] ["anxiety", "low energy", "overthinking", "hopelessness", "panic"]
        (mkAnswers "a" "b" "c" "d" "e")).length = 5 := by
  refine ⟨?_, ?_, ?_, ?_, by decide⟩
  · intro strat a
    rfl
  · intro strat themes a
    unfold explain_why
    cases themes with
    | nil => simp
    | cons t ts =>
        simp [List.length_take]
        omega
  · intro combined theme
    exact ⟨List.sorted_insertionSort _ _,
      (List.perm_insertionSort _ _).symm.nodup (List.nodup_dedup _)⟩
  · intro combined theme
    simp

/-- C8: the distress score is at most 7 for every answer set, and the
maximum 7 = 2 + 1 + 3 + 1 is attained whenever the stress answer
contains severe, the energy answer contains low, the thoughts answer
contains a crisis keyword and the difficulties answer is non-blank. -/
theorem score_checkin_range :
    (∀ e s en th d : String, score_checkin (mkAnswers e s en th d) ≤ 7) ∧
    (∀ e s en th d : String,
      ContainsSub "severe" (pyLower s) →
      ContainsSub "low" (pyLower en) →
      (∃ kw ∈ CRISIS_KEYWORDS, ContainsSub kw (pyLower th)) →
      pyStrip d ≠ "" →
      score_checkin (mkAnswers e s en th d) = 7) := by
  constructor
  · intro e s en th d
    unfold score_checkin
    rw [getA_mk_stress, getA_mk_energy, getA_mk_thoughts, getA_mk_difficulties]
    split_ifs <;> simp_arith
  · intro e s en th d h1 h2 h3 h4
    have h1' : strIn "severe" (pyLower s) = true := (strIn_iff _ _).mpr h1
    have h2' : strIn "low" (pyLower en) = true := (strIn_iff _ _).mpr h2
    have h3' : (CRISIS_KEYWORDS.any fun kw => strIn kw (pyLower th)) = true := by
      obtain ⟨kw, hkw, hc⟩ := h3
      exact List.any_eq_true.mpr ⟨kw, hkw, (strIn_iff _ _).mpr hc⟩
    unfold score_checkin
    rw [getA_mk_stress, getA_mk_energy, getA_mk_thoughts, getA_mk_difficulties]
    simp [h1', h2', h3', h4]

theorem score_checkin_range_witness :
    score_checkin (mkAnswers "" "severe" "low" "suicide" "x") = 7 :=
  score_checkin_range.2 "" "severe" "low" "suicide" "x"
    (by decide) (by decide) (by decide) (by decide)

/-- C9: every theme the extractor can emit has an entry in THEME_CUES,
so the empty-cues default of the explainer is never taken for a theme
list produced by rank_themes. -/
theorem rank_themes_cues_total (a : AnswersD) (th : String)
    (h : th ∈ rank_themes a) :
    (List.lookup th THEME_CUES).isSome = true ∧ cuesFor th ≠ Cues.mk [] [] := by
  have hmem := rank_themes_subset a th h
  fin_cases hmem <;> exact ⟨by decide, by decide⟩

theorem rank_themes_cues_total_witness :
    (List.lookup "panic" THEME_CUES).isSome = true
      ∧ cuesFor "panic" ≠ Cues.mk [] [] :=
  rank_themes_cues_total (mkAnswers "panicky" "" "" "" "") "panic" (by decide)

set_option maxHeartbeats 1000000 in
/-- C10: lowering the title-cased form of any strategy-lexicon key
recovers the key; hence any strategy the selector can offer, once
title-cased for display and lowered back on being picked, has a
successful description lookup, and the exercise event the orchestrator
can emit always carries a present description. -/
theorem strategy_title_lower_roundtrip :
    (∀ k ∈ STRATEGIES.map Prod.fst, pyLower (pyTitle k) = k) ∧
    (∀ themes : List String, ∀ k ∈ choose_strategies themes,
      (List.lookup (pyLower (pyTitle k)) STRATEGIES).isSome = true) ∧
    (∀ (s : Session) (key : String) (d : Option String),
      Event.exerciseShown key d ∈ run_bot s → d.isSome = true) := by
  refine ⟨keys_title_roundtrip, ?_, ?_⟩
  · intro themes k hk
    have hkeys := choose_strategies_subset_keys themes k hk
    rw [keys_title_roundtrip k hkeys]
    exact keys_lookup_isSome k hkeys
  · intro s key d hmem
    unfold run_bot at hmem
    rw [checkin_foldl] at hmem
    dsimp only at hmem
    split at hmem
    · simp [CHECKIN_QUESTIONS] at hmem
    · split at hmem
      · simp [CHECKIN_QUESTIONS] at hmem
      · split at hmem
        · simp [CHECKIN_QUESTIONS] at hmem
          obtain ⟨hkey, hd⟩ := hmem
          subst hd
          exact exercise_lookup_isSome _ s.pickIdx
        · simp [CHECKIN_QUESTIONS] at hmem

theorem strategy_title_lower_roundtrip_witness :
    (Option.some "Try the 5-4-3-2-1 technique: notice 5 things you see, 4 you feel, 3 you hear, 2 you smell, 1 you taste.").isSome = true :=
  strategy_title_lower_roundtrip.2.2 sessionTriesExercise "grounding"
    (Option.some "Try the 5-4-3-2-1 technique: notice 5 things you see, 4 you feel, 3 you hear, 2 you smell, 1 you taste.")
    (by decide)

end GoodBrain
